import Mathlib

/-!
Shallow embedding of `awsCloud.py`, an interactive AWS EC2 control-panel
script.  The boto3 SDK is modelled by an abstract oracle (`SdkOracle`)
whose fields give the outcome (`Except` = Python exception or result) of
each API call the script can make.  Every Python function becomes a pure
Lean function returning its result together with a trace of observable
events (prints, SDK calls, sleeps, client creations, input reads).
Machine-level caveats: Python `str.isdigit` is modelled on ASCII digits
(`Char.isDigit`), `str.strip` strips the ASCII whitespace recognised by
`Char.isWhitespace`; both agree with Python on all ASCII input.
-/

namespace AwsCloud

abbrev PyErr := String

/-- A boto3 filter dict, e.g. `{"Name": ..., "Values": [...]}`. -/
structure Filter where
  name : String
  values : List String
deriving DecidableEq, Repr

/-- The fields of an instance descriptor that the script reads. -/
structure InstanceInfo where
  instanceId : String
  imageId : String
  instanceType : String
  stateName : String
  monitoringState : String
deriving DecidableEq, Repr

structure Reservation where
  instances : List InstanceInfo
deriving DecidableEq, Repr

structure DescribeInstancesResponse where
  reservations : List Reservation
deriving DecidableEq, Repr

structure ZoneInfo where
  zoneId : String
  regionName : String
  zoneName : String
deriving DecidableEq, Repr

structure RegionInfo where
  regionName : String
  endpoint : String
deriving DecidableEq, Repr

structure ImageInfo where
  imageId : String
  name : Option String
  ownerId : String
deriving DecidableEq, Repr

structure RunInstancesResponse where
  instances : List InstanceInfo
deriving DecidableEq, Repr

structure SendCommandResponse where
  commandId : String
deriving DecidableEq, Repr

structure CommandInvocationResult where
  standardOutputContent : String
deriving DecidableEq, Repr

/-- Outcome of every SDK call the script can make: `.error e` models the
call raising a Python exception with message `e`. -/
structure SdkOracle where
  describe_instances : Except PyErr DescribeInstancesResponse
  describe_instances_filtered : List Filter → Except PyErr DescribeInstancesResponse
  describe_availability_zones : Except PyErr (List ZoneInfo)
  start_instances : List String → Except PyErr Unit
  describe_regions : Except PyErr (List RegionInfo)
  stop_instances : List String → Except PyErr Unit
  run_instances : String → String → Nat → Nat → Except PyErr RunInstancesResponse
  reboot_instances : List String → Except PyErr Unit
  describe_images : List String → Except PyErr (List ImageInfo)
  send_command : List String → String → List String → Except PyErr SendCommandResponse
  get_command_invocation : String → String → Except PyErr CommandInvocationResult

inductive SdkMethod
  | describeInstances
  | describeAvailabilityZones
  | startInstances
  | describeRegions
  | stopInstances
  | runInstances
  | rebootInstances
  | describeImages
  | sendCommand
  | getCommandInvocation
deriving DecidableEq, Repr

/-- Arguments recorded on an SDK call event. -/
inductive CallArgs
  | noArgs
  | instanceIds (ids : List String)
  | withFilters (fs : List Filter)
  | runInstancesArgs (imageId instanceType : String) (minCount maxCount : Nat)
  | imageOwners (owners : List String)
  | sendCommandArgs (instanceIds : List String) (documentName : String) (commands : List String)
  | invocationArgs (commandId instanceId : String)
deriving DecidableEq, Repr

/-- Observable events.  `sdkCall … ok` records an attempted API call and
whether it returned normally; `fileWrite` is in the vocabulary so that the
absence of file writes is a provable fact, not one true by construction of
the event type. -/
inductive Event
  | print (s : String)
  | sdkCall (m : SdkMethod) (args : CallArgs) (ok : Bool)
  | sleepSeconds (n : Nat)
  | createClient (service region : String)
  | readInput (prompt : String)
  | fileWrite (path content : String)
deriving DecidableEq, Repr

/-- Python `str.isdigit` (ASCII fragment): nonempty and all digits. -/
def pyIsDigit (s : String) : Bool :=
  !s.data.isEmpty && s.data.all Char.isDigit

/-- Python `int(...)` on a digit string. -/
def parseNat (s : String) : Nat :=
  s.data.foldl (fun n c => n * 10 + (c.toNat - 48)) 0

def stripChars (l : List Char) : List Char :=
  ((l.dropWhile Char.isWhitespace).reverse.dropWhile Char.isWhitespace).reverse

/-- Python `str.strip()` (ASCII whitespace fragment). -/
def pyStrip (s : String) : String := ⟨stripChars s.data⟩

def formatInstance (i : InstanceInfo) : String :=
  "[id] " ++ i.instanceId ++ ", [AMI] " ++ i.imageId ++ ", [type] " ++ i.instanceType ++
  ", [state] " ++ i.stateName ++ ", [monitoring state] " ++ i.monitoringState

/-- `list_instances(ec2)`: NOTE the source wraps this one in no try/except,
so an SDK error propagates to the caller (`.error e` result). -/
def list_instances (sdk : SdkOracle) : Except PyErr Unit × List Event :=
  let pre := [Event.print "Listing instances...."]
  match sdk.describe_instances with
  | .error e => (.error e, pre ++ [Event.sdkCall .describeInstances .noArgs false])
  | .ok resp =>
      (.ok (), pre ++ [Event.sdkCall .describeInstances .noArgs true] ++
        resp.reservations.flatMap (fun r => r.instances.map (fun i => Event.print (formatInstance i))))

def formatZone (z : ZoneInfo) : String :=
  "[id] " ++ z.zoneId ++ ", [region] " ++ z.regionName ++ ", [zone] " ++ z.zoneName

def available_zones (sdk : SdkOracle) : Except PyErr Unit × List Event :=
  let pre := [Event.print "Available zones...."]
  match sdk.describe_availability_zones with
  | .error e =>
      (.ok (), pre ++ [Event.sdkCall .describeAvailabilityZones .noArgs false,
        Event.print ("Error: " ++ e)])
  | .ok zones =>
      (.ok (), pre ++ [Event.sdkCall .describeAvailabilityZones .noArgs true] ++
        zones.map (fun z => Event.print (formatZone z)) ++
        [Event.print ("You have access to " ++ toString zones.length ++ " Availability Zones.")])

def start_instance (sdk : SdkOracle) (instance_id : String) : Except PyErr Unit × List Event :=
  let pre := [Event.print ("Starting instance " ++ instance_id ++ "...")]
  match sdk.start_instances [instance_id] with
  | .error e =>
      (.ok (), pre ++ [Event.sdkCall .startInstances (.instanceIds [instance_id]) false,
        Event.print ("Error: " ++ e)])
  | .ok _ =>
      (.ok (), pre ++ [Event.sdkCall .startInstances (.instanceIds [instance_id]) true,
        Event.print ("Successfully started instance " ++ instance_id ++ ".")])

def stop_instance (sdk : SdkOracle) (instance_id : String) : Except PyErr Unit × List Event :=
  let pre := [Event.print ("Stopping instance " ++ instance_id ++ "...")]
  match sdk.stop_instances [instance_id] with
  | .error e =>
      (.ok (), pre ++ [Event.sdkCall .stopInstances (.instanceIds [instance_id]) false,
        Event.print ("Error: " ++ e)])
  | .ok _ =>
      (.ok (), pre ++ [Event.sdkCall .stopInstances (.instanceIds [instance_id]) true,
        Event.print ("Successfully stopped instance " ++ instance_id ++ ".")])

def reboot_instance (sdk : SdkOracle) (instance_id : String) : Except PyErr Unit × List Event :=
  let pre := [Event.print ("Rebooting instance " ++ instance_id ++ "...")]
  match sdk.reboot_instances [instance_id] with
  | .error e =>
      (.ok (), pre ++ [Event.sdkCall .rebootInstances (.instanceIds [instance_id]) false,
        Event.print ("Error: " ++ e)])
  | .ok _ =>
      (.ok (), pre ++ [Event.sdkCall .rebootInstances (.instanceIds [instance_id]) true,
        Event.print ("Successfully rebooted instance " ++ instance_id ++ ".")])

def formatRegion (r : RegionInfo) : String :=
  "[region] " ++ r.regionName ++ ", [endpoint] " ++ r.endpoint

def available_regions (sdk : SdkOracle) : Except PyErr Unit × List Event :=
  let pre := [Event.print "Available regions...."]
  match sdk.describe_regions with
  | .error e =>
      (.ok (), pre ++ [Event.sdkCall .describeRegions .noArgs false,
        Event.print ("Error: " ++ e)])
  | .ok regions =>
      (.ok (), pre ++ [Event.sdkCall .describeRegions .noArgs true] ++
        regions.map (fun r => Event.print (formatRegion r)))

/-- `create_instance(ec2, ami_id)`: `run_instances(ImageId=ami_id,
InstanceType='t2.micro', MinCount=1, MaxCount=1)`; indexing
`response['Instances'][0]` on an empty list raises IndexError, caught by
the same catch-all. -/
def create_instance (sdk : SdkOracle) (ami_id : String) : Except PyErr Unit × List Event :=
  let pre := [Event.print ("Creating an instance with AMI " ++ ami_id ++ "...")]
  let args := CallArgs.runInstancesArgs ami_id "t2.micro" 1 1
  match sdk.run_instances ami_id "t2.micro" 1 1 with
  | .error e =>
      (.ok (), pre ++ [Event.sdkCall .runInstances args false, Event.print ("Error: " ++ e)])
  | .ok resp =>
      match resp.instances with
      | [] =>
          (.ok (), pre ++ [Event.sdkCall .runInstances args true,
            Event.print "Error: list index out of range"])
      | inst :: _ =>
          (.ok (), pre ++ [Event.sdkCall .runInstances args true,
            Event.print ("Successfully created instance " ++ inst.instanceId ++
              " based on AMI " ++ ami_id ++ ".")])

def formatImage (im : ImageInfo) : String :=
  "[ImageID] " ++ im.imageId ++ ", [Name] " ++ im.name.getD "N/A" ++ ", [Owner] " ++ im.ownerId

def list_images (sdk : SdkOracle) : Except PyErr Unit × List Event :=
  let pre := [Event.print "Listing images...."]
  match sdk.describe_images ["self"] with
  | .error e =>
      (.ok (), pre ++ [Event.sdkCall .describeImages (.imageOwners ["self"]) false,
        Event.print ("Error while listing images: " ++ e)])
  | .ok images =>
      if images.isEmpty then
        (.ok (), pre ++ [Event.sdkCall .describeImages (.imageOwners ["self"]) true,
          Event.print "No images found."])
      else
        (.ok (), pre ++ [Event.sdkCall .describeImages (.imageOwners ["self"]) true] ++
          images.map (fun im => Event.print (formatImage im)))

def default_running_filters : List Filter :=
  [⟨"instance-state-name", ["running"]⟩]

/-- `get_running_instances(ec2_client, filters=None)`: NO try/except — an
SDK error propagates to the caller. -/
def get_running_instances (sdk : SdkOracle) (filters : Option (List Filter)) :
    Except PyErr (List String) × List Event :=
  let fs := filters.getD default_running_filters
  match sdk.describe_instances_filtered fs with
  | .error e => (.error e, [Event.sdkCall .describeInstances (.withFilters fs) false])
  | .ok resp =>
      (.ok ((resp.reservations.flatMap (fun r => r.instances)).map (fun i => i.instanceId)),
        [Event.sdkCall .describeInstances (.withFilters fs) true])

/-- `run_command_on_instance(instance_id, command)`: creates an SSM client,
sends the command, sleeps a fixed 2 s, fetches the invocation result once;
returns the standard-output content, or `none` on any exception. -/
def run_command_on_instance (sdk : SdkOracle) (instance_id command : String) :
    Option String × List Event :=
  let clientEv := [Event.createClient "ssm" "us-east-1"]
  let sendArgs := CallArgs.sendCommandArgs [instance_id] "AWS-RunShellScript" [command]
  match sdk.send_command [instance_id] "AWS-RunShellScript" [command] with
  | .error e =>
      (none, clientEv ++ [Event.sdkCall .sendCommand sendArgs false,
        Event.print ("An error occurred: " ++ e)])
  | .ok resp =>
      let cid := resp.commandId
      let sent := clientEv ++ [Event.sdkCall .sendCommand sendArgs true,
        Event.print ("Command sent. Command ID: " ++ cid),
        Event.sleepSeconds 2]
      match sdk.get_command_invocation cid instance_id with
      | .error e =>
          (none, sent ++ [Event.sdkCall .getCommandInvocation (.invocationArgs cid instance_id) false,
            Event.print ("An error occurred: " ++ e)])
      | .ok result =>
          (some result.standardOutputContent,
            sent ++ [Event.sdkCall .getCommandInvocation (.invocationArgs cid instance_id) true,
              Event.print ("Command output from instance " ++ instance_id ++ ":\n")])

/-- Python truthiness of the value returned by `run_command_on_instance`:
`None` and the empty string are falsy. -/
def pyTruthyStr (o : Option String) : Bool :=
  match o with
  | none => false
  | some s => !s.data.isEmpty

/-- One iteration of the `for instance_id in instance_ids` loop of
`condor_status` (the body of its try/except; the body never raises since
`run_command_on_instance` catches everything). -/
def condorInstanceStep (sdk : SdkOracle) (instance_id : String) : List Event :=
  [Event.print ("Running 'condor_status' on instance " ++ instance_id ++ "...")] ++
  (run_command_on_instance sdk instance_id "condor_status").2 ++
  (if pyTruthyStr (run_command_on_instance sdk instance_id "condor_status").1 then
    [Event.print ("\nHTCondor Resource Status for instance " ++ instance_id ++ ":\n"),
     Event.print ((run_command_on_instance sdk instance_id "condor_status").1.getD "")]
  else
    [Event.print ("Failed to retrieve condor_status for instance " ++ instance_id ++ ".")])

/-- `condor_status()`: the call to `get_running_instances` is OUTSIDE any
try/except, so its error propagates out of `condor_status`. -/
def condor_status (sdk : SdkOracle) : Except PyErr Unit × List Event :=
  let pre := [Event.createClient "ec2" "us-east-1",
    Event.print "Fetching running EC2 instances..."]
  match get_running_instances sdk none with
  | (.error e, evs) => (.error e, pre ++ evs)
  | (.ok instance_ids, evs) =>
      if instance_ids.isEmpty then
        (.ok (), pre ++ evs ++ [Event.print "No running EC2 instances found."])
      else
        (.ok (), pre ++ evs ++
          [Event.print ("Found " ++ toString instance_ids.length ++
            " running instance(s): " ++ toString instance_ids)] ++
          instance_ids.flatMap (condorInstanceStep sdk))

structure Ec2Client where
  region : String
deriving DecidableEq, Repr

/-- Outcome of `boto3.client('ec2', ...)` in `init` (the two credential
exceptions the source catches, or success). -/
inductive ClientCreation
  | Ok
  | NoCredentialsError
  | PartialCredentialsError
deriving DecidableEq, Repr

inductive InitResult
  | client (c : Ec2Client)
  | exitStatus (n : Nat)
deriving DecidableEq, Repr

/-- `init()`: on a credential error, prints the message and `sys.exit(1)`. -/
def init (creation : ClientCreation) : InitResult × List Event :=
  match creation with
  | .Ok => (.client ⟨"us-east-1"⟩, [Event.createClient "ec2" "us-east-1"])
  | .NoCredentialsError =>
      (.exitStatus 1, [Event.createClient "ec2" "us-east-1",
        Event.print "Cannot load the credentials. Make sure your AWS CLI is configured."])
  | .PartialCredentialsError =>
      (.exitStatus 1, [Event.createClient "ec2" "us-east-1",
        Event.print "Cannot load the credentials. Make sure your AWS CLI is configured."])

def menuBanner : List Event :=
  [Event.print "\n------------------------------------------------------------",
   Event.print "             Amazon AWS Control Panel using SDK             ",
   Event.print "------------------------------------------------------------",
   Event.print "  1. List instances              2. Available zones",
   Event.print "  3. Start instance              4. Available regions",
   Event.print "  5. Stop instance               6. Create instance",
   Event.print "  7. Reboot instance             8. List images",
   Event.print "  9. condor_status               99. Quit",
   Event.print "------------------------------------------------------------"]

def menuPrompt : List Event := menuBanner ++ [Event.readInput "Enter an integer: "]

inductive MenuOutcome
  | loopAgain
  | quit
  | raised (e : PyErr)
deriving DecidableEq, Repr

def outcomeOf (p : Except PyErr Unit × List Event) : MenuOutcome :=
  match p.1 with
  | .ok _ => .loopAgain
  | .error e => .raised e

/-- `x = input(prompt).strip(); if x: op(x)` — the shape shared by menu
choices 3, 5, 6 and 7.  Reading past end of input raises EOFError. -/
def readIdThen (op : String → Except PyErr Unit × List Event) (prompt : String)
    (ec2 : Ec2Client) (preEvs : List Event) (inputs : List String) :
    MenuOutcome × Ec2Client × List Event × List String :=
  match inputs with
  | [] => (.raised "EOFError", ec2, preEvs ++ [Event.readInput prompt], [])
  | raw :: rest =>
      if (pyStrip raw).data.isEmpty then
        (.loopAgain, ec2, preEvs ++ [Event.readInput prompt], rest)
      else
        (outcomeOf (op (pyStrip raw)), ec2,
          preEvs ++ [Event.readInput prompt] ++ (op (pyStrip raw)).2, rest)

/-- One pass of the `while True` body of `main`: prints the menu, reads the
choice, dispatches.  Returns the outcome, the client for the next
iteration (never reassigned in the source), the events, and the remaining
input lines. -/
def mainIteration (ec2 : Ec2Client) (sdk : SdkOracle) (inputs : List String) :
    MenuOutcome × Ec2Client × List Event × List String :=
  match inputs with
  | [] => (.raised "EOFError", ec2, menuPrompt, [])
  | choice :: rest =>
      if !pyIsDigit choice then
        (.loopAgain, ec2, menuPrompt ++ [Event.print "Invalid input. Please enter a number."], rest)
      else
        match parseNat choice with
        | 1 => (outcomeOf (list_instances sdk), ec2, menuPrompt ++ (list_instances sdk).2, rest)
        | 2 => (outcomeOf (available_zones sdk), ec2, menuPrompt ++ (available_zones sdk).2, rest)
        | 3 => readIdThen (start_instance sdk) "Enter instance ID: " ec2 menuPrompt rest
        | 4 => (outcomeOf (available_regions sdk), ec2, menuPrompt ++ (available_regions sdk).2, rest)
        | 5 => readIdThen (stop_instance sdk) "Enter instance ID: " ec2 menuPrompt rest
        | 6 => readIdThen (create_instance sdk) "Enter AMI ID: " ec2 menuPrompt rest
        | 7 => readIdThen (reboot_instance sdk) "Enter instance ID: " ec2 menuPrompt rest
        | 8 => (outcomeOf (list_images sdk), ec2, menuPrompt ++ (list_images sdk).2, rest)
        | 9 => (outcomeOf (condor_status sdk), ec2, menuPrompt ++ (condor_status sdk).2, rest)
        | 99 => (.quit, ec2, menuPrompt ++ [Event.print "Goodbye!"], rest)
        | _ => (.loopAgain, ec2, menuPrompt ++ [Event.print "Invalid choice. Please try again."], rest)

inductive ProgResult
  | finished
  | exitStatus (n : Nat)
  | raised (e : PyErr)
  | fuelOut
deriving DecidableEq, Repr

/-- The `while True` loop, fuel-indexed. -/
def mainLoop (sdk : SdkOracle) : Nat → Ec2Client → List String → ProgResult × List Event
  | 0, _, _ => (.fuelOut, [])
  | fuel + 1, ec2, inputs =>
      match mainIteration ec2 sdk inputs with
      | (.loopAgain, ec2Next, evs, rest) =>
          let tail := mainLoop sdk fuel ec2Next rest
          (tail.1, evs ++ tail.2)
      | (.quit, _, evs, _) => (.finished, evs)
      | (.raised e, _, evs, _) => (.raised e, evs)

/-- `main()`: `init` then the menu loop. -/
def main (creation : ClientCreation) (sdk : SdkOracle) (fuel : Nat) (inputs : List String) :
    ProgResult × List Event :=
  match init creation with
  | (.client c, evs) =>
      let r := mainLoop sdk fuel c inputs
      (r.1, evs ++ r.2)
  | (.exitStatus n, evs) => (.exitStatus n, evs)

/-! ### Trace observations -/

def isEffect : Event → Bool
  | Event.sdkCall _ _ _ => true
  | Event.sleepSeconds _ => true
  | Event.print _ => false
  | Event.createClient _ _ => false
  | Event.readInput _ => false
  | Event.fileWrite _ _ => false

/-- The SDK calls and sleeps of a trace, prints etc. dropped. -/
def effectTrace (evs : List Event) : List Event := evs.filter isEffect

def callMethod : Event → Option SdkMethod
  | Event.sdkCall m _ _ => some m
  | _ => none

/-- The sequence of SDK methods called in a trace. -/
def sdkCallsOf (evs : List Event) : List SdkMethod := evs.filterMap callMethod

def isFileWrite : Event → Bool
  | Event.fileWrite _ _ => true
  | _ => false

/-- The argument payloads of the `run_instances` calls in a trace. -/
def runInstancesArgsOf : Event → Option CallArgs
  | Event.sdkCall SdkMethod.runInstances args _ => some args
  | _ => none

/-- Events the script may emit: anything except a file write, and any
client creation must target region us-east-1. -/
def tame : Event → Bool
  | Event.fileWrite _ _ => false
  | Event.createClient _ r => r = "us-east-1"
  | Event.print _ => true
  | Event.sdkCall _ _ _ => true
  | Event.sleepSeconds _ => true
  | Event.readInput _ => true

/-- Scans a trace tracking whether a remote command is in flight (sent via
`sendCommand` and not yet resolved by `getCommandInvocation`); `true` iff
no successful send happens while another command is still in flight. -/
def atMostOneInFlight (inflight : Bool) : List Event → Bool
  | [] => true
  | e :: rest =>
      match e with
      | Event.sdkCall SdkMethod.sendCommand _ ok =>
          if ok then !inflight && atMostOneInFlight true rest
          else atMostOneInFlight inflight rest
      | Event.sdkCall SdkMethod.getCommandInvocation _ _ => atMostOneInFlight false rest
      | _ => atMostOneInFlight inflight rest

/-- Per-instance effect trace of `condor_status` (derived form used to
state its step structure: one send; if the send returned, a fixed 2-second
sleep then exactly one result fetch). -/
def condorEffect (sdk : SdkOracle) (i : String) : List Event :=
  let sendArgs := CallArgs.sendCommandArgs [i] "AWS-RunShellScript" ["condor_status"]
  match sdk.send_command [i] "AWS-RunShellScript" ["condor_status"] with
  | .error _ => [Event.sdkCall .sendCommand sendArgs false]
  | .ok resp =>
      [Event.sdkCall .sendCommand sendArgs true,
       Event.sleepSeconds 2,
       Event.sdkCall .getCommandInvocation (.invocationArgs resp.commandId i)
         (match sdk.get_command_invocation resp.commandId i with
          | .error _ => false
          | .ok _ => true)]

/-- Running instance IDs as extracted by `get_running_instances`. -/
def runningIds (resp : DescribeInstancesResponse) : List String :=
  (resp.reservations.flatMap (fun r => r.instances)).map (fun i => i.instanceId)

/-! ### Concrete oracles for witnesses and counterexamples -/

def okInstance : InstanceInfo :=
  ⟨"i-0abc", "ami-1", "t2.micro", "running", "disabled"⟩

def baseOracle : SdkOracle where
  describe_instances := .ok ⟨[⟨[okInstance]⟩]⟩
  describe_instances_filtered := fun _ => .ok ⟨[⟨[okInstance]⟩]⟩
  describe_availability_zones := .ok [⟨"use1-az1", "us-east-1", "us-east-1a"⟩]
  start_instances := fun _ => .ok ()
  describe_regions := .ok [⟨"us-east-1", "ec2.us-east-1.amazonaws.com"⟩]
  stop_instances := fun _ => .ok ()
  run_instances := fun ami _ _ _ => .ok ⟨[⟨"i-new", ami, "t2.micro", "pending", "disabled"⟩]⟩
  reboot_instances := fun _ => .ok ()
  describe_images := fun _ => .ok [⟨"ami-1", some "img", "123456789012"⟩]
  send_command := fun _ _ _ => .ok ⟨"cmd-1"⟩
  get_command_invocation := fun _ _ => .ok ⟨"condor output"⟩

/-- Oracle whose unfiltered `describe_instances` raises. -/
def errDescribeOracle : SdkOracle :=
  { baseOracle with describe_instances := .error "boom" }

/-- Oracle whose filtered `describe_instances` raises. -/
def errFilteredOracle : SdkOracle :=
  { baseOracle with describe_instances_filtered := fun _ => .error "boom" }

/-- Oracle where the remote command succeeds with empty standard output. -/
def emptyOutOracle : SdkOracle :=
  { baseOracle with get_command_invocation := fun _ _ => .ok ⟨""⟩ }

def stubClient : Ec2Client := ⟨"us-east-1"⟩

/-! ## Helper lemmas -/

theorem filterMap_const_none {α β : Type} (l : List α) :
    l.filterMap (fun _ => (none : Option β)) = [] := by
  induction l with
  | nil => rfl
  | cons a t ih => simp [List.filterMap_cons, ih]

theorem sdkCallsOf_append (a b : List Event) :
    sdkCallsOf (a ++ b) = sdkCallsOf a ++ sdkCallsOf b := by
  simp [sdkCallsOf, List.filterMap_append]

theorem sdkCallsOf_map_print {α : Type} (f : α → String) (l : List α) :
    sdkCallsOf (l.map fun a => Event.print (f a)) = [] := by
  simp only [sdkCallsOf, List.filterMap_map]
  exact filterMap_const_none l

theorem sdkCallsOf_flatMap_print (l : List Reservation) :
    sdkCallsOf (l.flatMap fun r => r.instances.map fun i => Event.print (formatInstance i)) = [] := by
  induction l with
  | nil => rfl
  | cons r t ih =>
      simp only [List.flatMap_cons, sdkCallsOf_append, ih, sdkCallsOf_map_print,
        List.append_nil]

theorem sdkCallsOf_menuPrompt : sdkCallsOf menuPrompt = [] := rfl

/-! Per-operation facts: result value and sequence of SDK calls. -/

theorem list_instances_calls (sdk : SdkOracle) :
    sdkCallsOf (list_instances sdk).2 = [SdkMethod.describeInstances] := by
  cases h : sdk.describe_instances with
  | error e => simp [list_instances, h, sdkCallsOf, callMethod]
  | ok resp =>
      simp only [list_instances, h]
      rw [sdkCallsOf_append, sdkCallsOf_flatMap_print, List.append_nil]
      rfl

theorem available_zones_ok (sdk : SdkOracle) : (available_zones sdk).1 = .ok () := by
  cases h : sdk.describe_availability_zones <;> simp [available_zones, h]

theorem available_zones_calls (sdk : SdkOracle) :
    sdkCallsOf (available_zones sdk).2 = [SdkMethod.describeAvailabilityZones] := by
  cases h : sdk.describe_availability_zones with
  | error e => simp [available_zones, h, sdkCallsOf, callMethod]
  | ok zones =>
      simp [available_zones, h, sdkCallsOf_append, sdkCallsOf_map_print]
      simp [sdkCallsOf, callMethod]

theorem start_instance_ok (sdk : SdkOracle) (i : String) : (start_instance sdk i).1 = .ok () := by
  cases h : sdk.start_instances [i] <;> simp [start_instance, h]

theorem start_instance_calls (sdk : SdkOracle) (i : String) :
    sdkCallsOf (start_instance sdk i).2 = [SdkMethod.startInstances] := by
  cases h : sdk.start_instances [i] <;> simp [start_instance, h, sdkCallsOf, callMethod]

theorem stop_instance_ok (sdk : SdkOracle) (i : String) : (stop_instance sdk i).1 = .ok () := by
  cases h : sdk.stop_instances [i] <;> simp [stop_instance, h]

theorem stop_instance_calls (sdk : SdkOracle) (i : String) :
    sdkCallsOf (stop_instance sdk i).2 = [SdkMethod.stopInstances] := by
  cases h : sdk.stop_instances [i] <;> simp [stop_instance, h, sdkCallsOf, callMethod]

theorem reboot_instance_ok (sdk : SdkOracle) (i : String) : (reboot_instance sdk i).1 = .ok () := by
  cases h : sdk.reboot_instances [i] <;> simp [reboot_instance, h]

theorem reboot_instance_calls (sdk : SdkOracle) (i : String) :
    sdkCallsOf (reboot_instance sdk i).2 = [SdkMethod.rebootInstances] := by
  cases h : sdk.reboot_instances [i] <;> simp [reboot_instance, h, sdkCallsOf, callMethod]

theorem available_regions_ok (sdk : SdkOracle) : (available_regions sdk).1 = .ok () := by
  cases h : sdk.describe_regions <;> simp [available_regions, h]

theorem available_regions_calls (sdk : SdkOracle) :
    sdkCallsOf (available_regions sdk).2 = [SdkMethod.describeRegions] := by
  cases h : sdk.describe_regions with
  | error e => simp [available_regions, h, sdkCallsOf, callMethod]
  | ok regions =>
      simp [available_regions, h, sdkCallsOf_append, sdkCallsOf_map_print]
      simp [sdkCallsOf, callMethod]

theorem create_instance_ok (sdk : SdkOracle) (ami : String) :
    (create_instance sdk ami).1 = .ok () := by
  cases h : sdk.run_instances ami "t2.micro" 1 1 with
  | error e => simp [create_instance, h]
  | ok resp => cases hi : resp.instances <;> simp [create_instance, h, hi]

theorem create_instance_calls (sdk : SdkOracle) (ami : String) :
    sdkCallsOf (create_instance sdk ami).2 = [SdkMethod.runInstances] := by
  cases h : sdk.run_instances ami "t2.micro" 1 1 with
  | error e => simp [create_instance, h, sdkCallsOf, callMethod]
  | ok resp => cases hi : resp.instances <;> simp [create_instance, h, hi, sdkCallsOf, callMethod]

theorem list_images_ok (sdk : SdkOracle) : (list_images sdk).1 = .ok () := by
  cases h : sdk.describe_images ["self"] with
  | error e => simp [list_images, h]
  | ok images => by_cases hi : images.isEmpty <;> simp [list_images, h, hi]

theorem list_images_calls (sdk : SdkOracle) :
    sdkCallsOf (list_images sdk).2 = [SdkMethod.describeImages] := by
  cases h : sdk.describe_images ["self"] with
  | error e => simp [list_images, h, sdkCallsOf, callMethod]
  | ok images =>
      by_cases hi : images.isEmpty
      · simp [list_images, h, hi, sdkCallsOf, callMethod]
      · simp [list_images, h, hi, sdkCallsOf_append, sdkCallsOf_map_print]
        simp [sdkCallsOf, callMethod]

theorem string_data_isEmpty_iff (s : String) : s.data.isEmpty = true ↔ s = "" := by
  constructor
  · intro h
    cases s with
    | mk l =>
        cases l with
        | nil => rfl
        | cons c t => simp [List.isEmpty] at h
  · rintro rfl
    rfl

theorem pyTruthyStr_eq_false_iff (o : Option String) :
    pyTruthyStr o = false ↔ (o = none ∨ o = some "") := by
  cases o with
  | none => simp [pyTruthyStr]
  | some s =>
      simp only [pyTruthyStr, Bool.not_eq_false']
      rw [string_data_isEmpty_iff]
      simp

/-! Tameness (no file writes, clients only in us-east-1) of every trace. -/

theorem tame_map_print {α : Type} (f : α → String) (l : List α) :
    (l.map fun a => Event.print (f a)).all tame = true := by
  simp only [List.all_eq_true, List.mem_map]
  rintro e ⟨a, _, rfl⟩
  rfl

theorem tame_flatMap_print (l : List Reservation) :
    (l.flatMap fun r => r.instances.map fun i => Event.print (formatInstance i)).all tame = true := by
  induction l with
  | nil => rfl
  | cons r t ih => simp [List.all_append, ih, tame_map_print]

theorem tame_list_instances (sdk : SdkOracle) : (list_instances sdk).2.all tame = true := by
  cases h : sdk.describe_instances with
  | error e => simp only [list_instances, h]; rfl
  | ok resp =>
      simp only [list_instances, h]
      rw [List.all_append, tame_flatMap_print]
      rfl

theorem tame_available_zones (sdk : SdkOracle) : (available_zones sdk).2.all tame = true := by
  cases h : sdk.describe_availability_zones with
  | error e => simp only [available_zones, h]; rfl
  | ok zones =>
      simp only [available_zones, h]
      rw [List.all_append, List.all_append, tame_map_print]
      rfl

theorem tame_start_instance (sdk : SdkOracle) (i : String) :
    (start_instance sdk i).2.all tame = true := by
  cases h : sdk.start_instances [i] <;> (simp only [start_instance, h]; rfl)

theorem tame_stop_instance (sdk : SdkOracle) (i : String) :
    (stop_instance sdk i).2.all tame = true := by
  cases h : sdk.stop_instances [i] <;> (simp only [stop_instance, h]; rfl)

theorem tame_reboot_instance (sdk : SdkOracle) (i : String) :
    (reboot_instance sdk i).2.all tame = true := by
  cases h : sdk.reboot_instances [i] <;> (simp only [reboot_instance, h]; rfl)

theorem tame_available_regions (sdk : SdkOracle) : (available_regions sdk).2.all tame = true := by
  cases h : sdk.describe_regions with
  | error e => simp only [available_regions, h]; rfl
  | ok regions =>
      simp only [available_regions, h]
      rw [List.all_append, tame_map_print]
      rfl

theorem tame_create_instance (sdk : SdkOracle) (ami : String) :
    (create_instance sdk ami).2.all tame = true := by
  cases h : sdk.run_instances ami "t2.micro" 1 1 with
  | error e => simp only [create_instance, h]; rfl
  | ok resp => cases hi : resp.instances <;> (simp only [create_instance, h, hi]; rfl)

theorem tame_list_images (sdk : SdkOracle) : (list_images sdk).2.all tame = true := by
  cases h : sdk.describe_images ["self"] with
  | error e => simp only [list_images, h]; rfl
  | ok images =>
      by_cases hi : images.isEmpty = true
      · simp only [list_images, h]
        rw [if_pos hi]
        rfl
      · simp only [list_images, h]
        rw [if_neg hi, List.all_append, tame_map_print]
        rfl

theorem tame_run_command (sdk : SdkOracle) (i cmd : String) :
    (run_command_on_instance sdk i cmd).2.all tame = true := by
  cases hs : sdk.send_command [i] "AWS-RunShellScript" [cmd] with
  | error e => simp only [run_command_on_instance, hs]; rfl
  | ok resp =>
      cases hg : sdk.get_command_invocation resp.commandId i <;>
        (simp only [run_command_on_instance, hs, hg]; rfl)

theorem tame_condorInstanceStep (sdk : SdkOracle) (i : String) :
    (condorInstanceStep sdk i).all tame = true := by
  have h1 := tame_run_command sdk i "condor_status"
  cases hpt : pyTruthyStr (run_command_on_instance sdk i "condor_status").1 <;>
    simp [condorInstanceStep, hpt, List.all_append, h1, tame]

theorem tame_flatMap_step (sdk : SdkOracle) (l : List String) :
    (l.flatMap (condorInstanceStep sdk)).all tame = true := by
  induction l with
  | nil => rfl
  | cons i t ih => simp [List.all_append, tame_condorInstanceStep, ih]

theorem get_running_instances_none_error (sdk : SdkOracle) (e : PyErr)
    (h : sdk.describe_instances_filtered default_running_filters = .error e) :
    get_running_instances sdk none =
      (.error e, [Event.sdkCall .describeInstances (.withFilters default_running_filters) false]) := by
  simp [get_running_instances, h]

theorem get_running_instances_none_ok (sdk : SdkOracle) (resp : DescribeInstancesResponse)
    (h : sdk.describe_instances_filtered default_running_filters = .ok resp) :
    get_running_instances sdk none =
      (.ok (runningIds resp),
        [Event.sdkCall .describeInstances (.withFilters default_running_filters) true]) := by
  simp [get_running_instances, runningIds, h]

theorem tame_condor_status (sdk : SdkOracle) : (condor_status sdk).2.all tame = true := by
  cases hf : sdk.describe_instances_filtered default_running_filters with
  | error e =>
      simp only [condor_status, get_running_instances_none_error sdk e hf]
      rfl
  | ok resp =>
      by_cases hi : (runningIds resp).isEmpty = true
      · simp only [condor_status, get_running_instances_none_ok sdk resp hf]
        rw [if_pos hi]
        rfl
      · simp only [condor_status, get_running_instances_none_ok sdk resp hf]
        rw [if_neg hi, List.all_append, tame_flatMap_step]
        rfl

/-! Reduction of one menu iteration at each concrete choice. -/

/-- Definitional unfolding of one iteration on a nonempty input stream. -/
theorem mainIteration_cons (ec2 : Ec2Client) (sdk : SdkOracle) (choice : String)
    (rest : List String) :
    mainIteration ec2 sdk (choice :: rest) =
      (if !pyIsDigit choice then
        (.loopAgain, ec2, menuPrompt ++ [Event.print "Invalid input. Please enter a number."], rest)
      else
        match parseNat choice with
        | 1 => (outcomeOf (list_instances sdk), ec2, menuPrompt ++ (list_instances sdk).2, rest)
        | 2 => (outcomeOf (available_zones sdk), ec2, menuPrompt ++ (available_zones sdk).2, rest)
        | 3 => readIdThen (start_instance sdk) "Enter instance ID: " ec2 menuPrompt rest
        | 4 => (outcomeOf (available_regions sdk), ec2, menuPrompt ++ (available_regions sdk).2, rest)
        | 5 => readIdThen (stop_instance sdk) "Enter instance ID: " ec2 menuPrompt rest
        | 6 => readIdThen (create_instance sdk) "Enter AMI ID: " ec2 menuPrompt rest
        | 7 => readIdThen (reboot_instance sdk) "Enter instance ID: " ec2 menuPrompt rest
        | 8 => (outcomeOf (list_images sdk), ec2, menuPrompt ++ (list_images sdk).2, rest)
        | 9 => (outcomeOf (condor_status sdk), ec2, menuPrompt ++ (condor_status sdk).2, rest)
        | 99 => (.quit, ec2, menuPrompt ++ [Event.print "Goodbye!"], rest)
        | _ => (.loopAgain, ec2, menuPrompt ++ [Event.print "Invalid choice. Please try again."], rest)) := rfl

theorem mainIteration_nondigit (ec2 : Ec2Client) (sdk : SdkOracle) (choice : String)
    (rest : List String) (h : pyIsDigit choice = false) :
    mainIteration ec2 sdk (choice :: rest) =
      (.loopAgain, ec2, menuPrompt ++ [Event.print "Invalid input. Please enter a number."], rest) := by
  simp [mainIteration, h]

theorem mainIteration_choice1 (ec2 : Ec2Client) (sdk : SdkOracle) (rest : List String) :
    mainIteration ec2 sdk ("1" :: rest) =
      (outcomeOf (list_instances sdk), ec2, menuPrompt ++ (list_instances sdk).2, rest) := rfl

theorem mainIteration_choice2 (ec2 : Ec2Client) (sdk : SdkOracle) (rest : List String) :
    mainIteration ec2 sdk ("2" :: rest) =
      (outcomeOf (available_zones sdk), ec2, menuPrompt ++ (available_zones sdk).2, rest) := rfl

theorem mainIteration_choice3 (ec2 : Ec2Client) (sdk : SdkOracle) (rest : List String) :
    mainIteration ec2 sdk ("3" :: rest) =
      readIdThen (start_instance sdk) "Enter instance ID: " ec2 menuPrompt rest := rfl

theorem mainIteration_choice4 (ec2 : Ec2Client) (sdk : SdkOracle) (rest : List String) :
    mainIteration ec2 sdk ("4" :: rest) =
      (outcomeOf (available_regions sdk), ec2, menuPrompt ++ (available_regions sdk).2, rest) := rfl

theorem mainIteration_choice5 (ec2 : Ec2Client) (sdk : SdkOracle) (rest : List String) :
    mainIteration ec2 sdk ("5" :: rest) =
      readIdThen (stop_instance sdk) "Enter instance ID: " ec2 menuPrompt rest := rfl

theorem mainIteration_choice6 (ec2 : Ec2Client) (sdk : SdkOracle) (rest : List String) :
    mainIteration ec2 sdk ("6" :: rest) =
      readIdThen (create_instance sdk) "Enter AMI ID: " ec2 menuPrompt rest := rfl

theorem mainIteration_choice7 (ec2 : Ec2Client) (sdk : SdkOracle) (rest : List String) :
    mainIteration ec2 sdk ("7" :: rest) =
      readIdThen (reboot_instance sdk) "Enter instance ID: " ec2 menuPrompt rest := rfl

theorem mainIteration_choice8 (ec2 : Ec2Client) (sdk : SdkOracle) (rest : List String) :
    mainIteration ec2 sdk ("8" :: rest) =
      (outcomeOf (list_images sdk), ec2, menuPrompt ++ (list_images sdk).2, rest) := rfl

theorem mainIteration_choice9 (ec2 : Ec2Client) (sdk : SdkOracle) (rest : List String) :
    mainIteration ec2 sdk ("9" :: rest) =
      (outcomeOf (condor_status sdk), ec2, menuPrompt ++ (condor_status sdk).2, rest) := rfl

theorem mainIteration_choice99 (ec2 : Ec2Client) (sdk : SdkOracle) (rest : List String) :
    mainIteration ec2 sdk ("99" :: rest) =
      (.quit, ec2, menuPrompt ++ [Event.print "Goodbye!"], rest) := rfl

theorem readIdThen_empty (op : String → Except PyErr Unit × List Event) (prompt : String)
    (ec2 : Ec2Client) (preEvs : List Event) (raw : String) (rest : List String)
    (h : pyStrip raw = "") :
    readIdThen op prompt ec2 preEvs (raw :: rest) =
      (.loopAgain, ec2, preEvs ++ [Event.readInput prompt], rest) := by
  have he : (pyStrip raw).data.isEmpty = true := by rw [h]; rfl
  simp [readIdThen, he]

theorem readIdThen_nonempty (op : String → Except PyErr Unit × List Event) (prompt : String)
    (ec2 : Ec2Client) (preEvs : List Event) (raw : String) (rest : List String)
    (h : pyStrip raw ≠ "") :
    readIdThen op prompt ec2 preEvs (raw :: rest) =
      (outcomeOf (op (pyStrip raw)), ec2,
        preEvs ++ [Event.readInput prompt] ++ (op (pyStrip raw)).2, rest) := by
  have he : ¬ (pyStrip raw).data.isEmpty = true := fun hc =>
    h ((string_data_isEmpty_iff (pyStrip raw)).mp hc)
  simp [readIdThen, he]

theorem readIdThen_client (op : String → Except PyErr Unit × List Event) (prompt : String)
    (ec2 : Ec2Client) (preEvs : List Event) (inputs : List String) :
    (readIdThen op prompt ec2 preEvs inputs).2.1 = ec2 := by
  cases inputs with
  | nil => rfl
  | cons raw rest =>
      by_cases he : (pyStrip raw).data.isEmpty = true <;> simp [readIdThen, he]

theorem readIdThen_tame (op : String → Except PyErr Unit × List Event) (prompt : String)
    (ec2 : Ec2Client) (preEvs : List Event) (inputs : List String)
    (hpre : preEvs.all tame = true) (hop : ∀ s, (op s).2.all tame = true) :
    (readIdThen op prompt ec2 preEvs inputs).2.2.1.all tame = true := by
  cases inputs with
  | nil => simp [readIdThen, List.all_append, hpre, tame]
  | cons raw rest =>
      by_cases he : (pyStrip raw).data.isEmpty = true <;>
        simp [readIdThen, he, List.all_append, hpre, hop, tame]

theorem menuPrompt_tame : menuPrompt.all tame = true := rfl

theorem mainIteration_client (ec2 : Ec2Client) (sdk : SdkOracle) (inputs : List String) :
    (mainIteration ec2 sdk inputs).2.1 = ec2 := by
  cases inputs with
  | nil => rfl
  | cons choice rest =>
      rw [mainIteration_cons]
      by_cases hd : (!pyIsDigit choice) = true
      · rw [if_pos hd]
      · rw [if_neg hd]
        split <;> first | rfl | apply readIdThen_client

theorem mainIteration_tame (ec2 : Ec2Client) (sdk : SdkOracle) (inputs : List String) :
    (mainIteration ec2 sdk inputs).2.2.1.all tame = true := by
  cases inputs with
  | nil => rfl
  | cons choice rest =>
      rw [mainIteration_cons]
      by_cases hd : (!pyIsDigit choice) = true
      · rw [if_pos hd]; rfl
      · rw [if_neg hd]
        split
        all_goals
          first
            | rfl
            | (apply readIdThen_tame _ _ _ _ _ menuPrompt_tame
               intro s
               first
                 | exact tame_start_instance sdk s
                 | exact tame_stop_instance sdk s
                 | exact tame_create_instance sdk s
                 | exact tame_reboot_instance sdk s)
            | (simp only [List.all_append, menuPrompt_tame, Bool.true_and, tame_list_instances,
                 tame_available_zones, tame_available_regions, tame_list_images, tame_condor_status,
                 tame, List.all_cons, List.all_nil, Bool.and_true])

theorem mainLoop_tame (sdk : SdkOracle) (fuel : Nat) :
    ∀ (ec2 : Ec2Client) (inputs : List String),
      (mainLoop sdk fuel ec2 inputs).2.all tame = true := by
  induction fuel with
  | zero => intro ec2 inputs; rfl
  | succ n ih =>
      intro ec2 inputs
      have h := mainIteration_tame ec2 sdk inputs
      rcases hmi : mainIteration ec2 sdk inputs with ⟨o, ec2n, evs, rest⟩
      rw [hmi] at h
      cases o <;> simp [mainLoop, hmi, List.all_append, h, ih]

theorem main_tame (creation : ClientCreation) (sdk : SdkOracle) (fuel : Nat)
    (inputs : List String) : (main creation sdk fuel inputs).2.all tame = true := by
  cases creation <;>
    simp [main, init, List.all_append, mainLoop_tame, tame]

/-! Effect traces of `condor_status` and the in-flight discipline. -/

theorem effectTrace_append (a b : List Event) :
    effectTrace (a ++ b) = effectTrace a ++ effectTrace b := by
  simp [effectTrace, List.filter_append]

theorem effectTrace_condorInstanceStep (sdk : SdkOracle) (i : String) :
    effectTrace (condorInstanceStep sdk i) = condorEffect sdk i := by
  cases hs : sdk.send_command [i] "AWS-RunShellScript" ["condor_status"] with
  | error e =>
      simp [condorInstanceStep, run_command_on_instance, condorEffect, hs, pyTruthyStr,
        effectTrace, isEffect]
  | ok resp =>
      cases hg : sdk.get_command_invocation resp.commandId i with
      | error e =>
          simp [condorInstanceStep, run_command_on_instance, condorEffect, hs, hg, pyTruthyStr,
            effectTrace, isEffect]
      | ok result =>
          by_cases hpt : result.standardOutputContent.data.isEmpty = true <;>
            simp [condorInstanceStep, run_command_on_instance, condorEffect, hs, hg, pyTruthyStr,
              hpt, effectTrace, isEffect]

theorem effectTrace_flatMap_step (sdk : SdkOracle) (l : List String) :
    effectTrace (l.flatMap (condorInstanceStep sdk)) = l.flatMap (condorEffect sdk) := by
  induction l with
  | nil => rfl
  | cons i t ih =>
      rw [List.flatMap_cons, List.flatMap_cons, effectTrace_append,
        effectTrace_condorInstanceStep, ih]

theorem amoif_print (b : Bool) (s : String) (rest : List Event) :
    atMostOneInFlight b (Event.print s :: rest) = atMostOneInFlight b rest := rfl

theorem amoif_client (b : Bool) (s r : String) (rest : List Event) :
    atMostOneInFlight b (Event.createClient s r :: rest) = atMostOneInFlight b rest := rfl

theorem amoif_sleep (b : Bool) (n : Nat) (rest : List Event) :
    atMostOneInFlight b (Event.sleepSeconds n :: rest) = atMostOneInFlight b rest := rfl

theorem amoif_describe (b : Bool) (args : CallArgs) (ok : Bool) (rest : List Event) :
    atMostOneInFlight b (Event.sdkCall .describeInstances args ok :: rest) =
      atMostOneInFlight b rest := rfl

theorem amoif_send (b : Bool) (args : CallArgs) (ok : Bool) (rest : List Event) :
    atMostOneInFlight b (Event.sdkCall .sendCommand args ok :: rest) =
      if ok then !b && atMostOneInFlight true rest else atMostOneInFlight b rest := rfl

theorem amoif_get (b : Bool) (args : CallArgs) (ok : Bool) (rest : List Event) :
    atMostOneInFlight b (Event.sdkCall .getCommandInvocation args ok :: rest) =
      atMostOneInFlight false rest := rfl

theorem amoif_condorInstanceStep (sdk : SdkOracle) (i : String) (rest : List Event) :
    atMostOneInFlight false (condorInstanceStep sdk i ++ rest) =
      atMostOneInFlight false rest := by
  cases hs : sdk.send_command [i] "AWS-RunShellScript" ["condor_status"] with
  | error e =>
      simp [condorInstanceStep, run_command_on_instance, hs, pyTruthyStr,
        amoif_print, amoif_client, amoif_send, List.cons_append, List.nil_append,
        List.append_assoc]
  | ok resp =>
      cases hg : sdk.get_command_invocation resp.commandId i with
      | error e =>
          simp [condorInstanceStep, run_command_on_instance, hs, hg, pyTruthyStr,
            amoif_print, amoif_client, amoif_send, amoif_sleep, amoif_get,
            List.cons_append, List.nil_append, List.append_assoc]
      | ok result =>
          by_cases hpt : result.standardOutputContent.data.isEmpty = true <;>
            simp [condorInstanceStep, run_command_on_instance, hs, hg, pyTruthyStr, hpt,
              amoif_print, amoif_client, amoif_send, amoif_sleep, amoif_get,
              List.cons_append, List.nil_append, List.append_assoc]

theorem amoif_flatMap_step (sdk : SdkOracle) (l : List String) :
    atMostOneInFlight false (l.flatMap (condorInstanceStep sdk)) = true := by
  induction l with
  | nil => rfl
  | cons i t ih => rw [List.flatMap_cons, amoif_condorInstanceStep]; exact ih

theorem all_noFileWrite_of_tame (l : List Event) (h : l.all tame = true) :
    (l.all fun e => !isFileWrite e) = true := by
  rw [List.all_eq_true] at h ⊢
  intro e he
  have ht := h e he
  cases e <;> simp_all [tame, isFileWrite]

theorem createClient_region_of_tame (l : List Event) (h : l.all tame = true)
    (svc r : String) (hm : Event.createClient svc r ∈ l) : r = "us-east-1" := by
  rw [List.all_eq_true] at h
  have ht := h _ hm
  simpa [tame] using ht

theorem sdkCallsOf_readInput (p : String) : sdkCallsOf [Event.readInput p] = [] := rfl

theorem list_instances_result_error (sdk : SdkOracle) (e : PyErr)
    (h : sdk.describe_instances = .error e) : (list_instances sdk).1 = .error e := by
  simp only [list_instances, h]

theorem condor_status_result_error (sdk : SdkOracle) (e : PyErr)
    (h : sdk.describe_instances_filtered default_running_filters = .error e) :
    (condor_status sdk).1 = .error e := by
  simp only [condor_status, get_running_instances_none_error sdk e h]

theorem condor_status_result_ok (sdk : SdkOracle) (resp : DescribeInstancesResponse)
    (h : sdk.describe_instances_filtered default_running_filters = .ok resp) :
    (condor_status sdk).1 = .ok () := by
  simp only [condor_status, get_running_instances_none_ok sdk resp h]
  by_cases hi : (runningIds resp).isEmpty = true
  · rw [if_pos hi]
  · rw [if_neg hi]

/-! ## Claim theorems -/

/-- C1, counterexample: the claim "any exception raised by the underlying
API call is caught inside the operation ... no error is ever propagated
out of an operation to its caller" is false: with an oracle whose
`describe_instances` raises "boom", selecting menu choice 1
(`list_instances`, which the source wraps in no try/except) makes the
iteration end with the exception propagated to `main`, not with a normal
return to the menu loop. -/
theorem c1_counterexample :
    (mainIteration stubClient errDescribeOracle ["1"]).1 = MenuOutcome.raised "boom" ∧
    (mainIteration stubClient errDescribeOracle ["1"]).1 ≠ MenuOutcome.loopAgain := by
  constructor <;> decide

/-- C1, amended: every SDK-calling operation reachable from the menu
catches exceptions internally and returns control to the loop, EXCEPT
`list_instances` (choice 1) and the `get_running_instances` step of
`condor_status` (choice 9): an exception of `describe_instances` there
propagates out of the operation. -/
theorem c1_amended (ec2 : Ec2Client) (sdk : SdkOracle) (idRaw : String) (rest : List String)
    (h : pyStrip idRaw ≠ "") :
    (mainIteration ec2 sdk ("2" :: rest)).1 = MenuOutcome.loopAgain ∧
    (mainIteration ec2 sdk ("3" :: idRaw :: rest)).1 = MenuOutcome.loopAgain ∧
    (mainIteration ec2 sdk ("4" :: rest)).1 = MenuOutcome.loopAgain ∧
    (mainIteration ec2 sdk ("5" :: idRaw :: rest)).1 = MenuOutcome.loopAgain ∧
    (mainIteration ec2 sdk ("6" :: idRaw :: rest)).1 = MenuOutcome.loopAgain ∧
    (mainIteration ec2 sdk ("7" :: idRaw :: rest)).1 = MenuOutcome.loopAgain ∧
    (mainIteration ec2 sdk ("8" :: rest)).1 = MenuOutcome.loopAgain ∧
    (∀ resp, sdk.describe_instances_filtered default_running_filters = Except.ok resp →
      (mainIteration ec2 sdk ("9" :: rest)).1 = MenuOutcome.loopAgain) ∧
    (∀ e, sdk.describe_instances = Except.error e →
      (mainIteration ec2 sdk ("1" :: rest)).1 = MenuOutcome.raised e) ∧
    (∀ e, sdk.describe_instances_filtered default_running_filters = Except.error e →
      (mainIteration ec2 sdk ("9" :: rest)).1 = MenuOutcome.raised e) := by
  refine ⟨?_, ?_, ?_, ?_, ?_, ?_, ?_, ?_, ?_, ?_⟩
  · rw [mainIteration_choice2]
    simp [outcomeOf, available_zones_ok sdk]
  · rw [mainIteration_choice3, readIdThen_nonempty _ _ _ _ _ _ h]
    simp [outcomeOf, start_instance_ok sdk]
  · rw [mainIteration_choice4]
    simp [outcomeOf, available_regions_ok sdk]
  · rw [mainIteration_choice5, readIdThen_nonempty _ _ _ _ _ _ h]
    simp [outcomeOf, stop_instance_ok sdk]
  · rw [mainIteration_choice6, readIdThen_nonempty _ _ _ _ _ _ h]
    simp [outcomeOf, create_instance_ok sdk]
  · rw [mainIteration_choice7, readIdThen_nonempty _ _ _ _ _ _ h]
    simp [outcomeOf, reboot_instance_ok sdk]
  · rw [mainIteration_choice8]
    simp [outcomeOf, list_images_ok sdk]
  · intro resp hresp
    rw [mainIteration_choice9]
    simp [outcomeOf, condor_status_result_ok sdk resp hresp]
  · intro e he
    rw [mainIteration_choice1]
    simp [outcomeOf, list_instances_result_error sdk e he]
  · intro e he
    rw [mainIteration_choice9]
    simp [outcomeOf, condor_status_result_error sdk e he]

/-- C1, witness for the amended theorem at concrete inputs. -/
theorem c1_amended_witness :
    (mainIteration stubClient baseOracle ("2" :: [])).1 = MenuOutcome.loopAgain ∧
    (mainIteration stubClient errDescribeOracle ("9" :: [])).1 = MenuOutcome.loopAgain := by
  constructor
  · exact (c1_amended stubClient baseOracle "i-0abc" [] (by decide)).1
  · exact ((c1_amended stubClient errDescribeOracle "i-0abc" [] (by decide)).2.2.2.2.2.2.2.1
      ⟨[⟨[okInstance]⟩]⟩ rfl)

/-- C2: the `condor_status` operation (a) retrieves the running instance
IDs with one filtered `describe_instances` call, then, per running
instance in order: (b) sends exactly one remote `condor_status` command
via SSM `send_command`, (c) after a successful send unconditionally sleeps
a fixed 2 seconds, and (d) fetches the command invocation result exactly
once with `get_command_invocation` — the full effect trace is literally
this sequence, so there is no retry, polling loop, or timeout handling
anywhere in the path. -/
theorem c2_condor_status_steps (sdk : SdkOracle) (resp : DescribeInstancesResponse)
    (h : sdk.describe_instances_filtered default_running_filters = Except.ok resp) :
    effectTrace (condor_status sdk).2 =
      Event.sdkCall .describeInstances (.withFilters default_running_filters) true ::
        (runningIds resp).flatMap (condorEffect sdk) := by
  simp only [condor_status, get_running_instances_none_ok sdk resp h]
  by_cases hi : (runningIds resp).isEmpty = true
  · rw [if_pos hi]
    rw [List.isEmpty_iff.mp hi]
    rfl
  · rw [if_neg hi]
    rw [effectTrace_append, effectTrace_flatMap_step]
    rfl

/-- C2, witness: the step structure evaluated on a concrete oracle with
one running instance. -/
theorem c2_witness :
    effectTrace (condor_status baseOracle).2 =
      Event.sdkCall .describeInstances (.withFilters default_running_filters) true ::
        (runningIds ⟨[⟨[okInstance]⟩]⟩).flatMap (condorEffect baseOracle) :=
  c2_condor_status_steps baseOracle ⟨[⟨[okInstance]⟩]⟩ rfl

/-- C6: `condor_status` processes instances strictly sequentially — at no
point in its event trace are two remote commands in flight at once: a
successful `send_command` only ever happens when the previous command's
invocation result has already been fetched (or its send failed). -/
theorem c6_sequential (sdk : SdkOracle) :
    atMostOneInFlight false (condor_status sdk).2 = true := by
  cases hf : sdk.describe_instances_filtered default_running_filters with
  | error e =>
      simp only [condor_status, get_running_instances_none_error sdk e hf]
      rfl
  | ok resp =>
      simp only [condor_status, get_running_instances_none_ok sdk resp hf]
      by_cases hi : (runningIds resp).isEmpty = true
      · rw [if_pos hi]
        rfl
      · rw [if_neg hi]
        simp only [List.append_assoc, List.cons_append, List.nil_append,
          amoif_client, amoif_print, amoif_describe]
        exact amoif_flatMap_step sdk (runningIds resp)

/-- C3: for each menu choice 1–8 (with a non-whitespace identifier where
one is requested), one iteration makes exactly one SDK call, to the
respective method `describe_instances`, `describe_availability_zones`,
`start_instances`, `describe_regions`, `stop_instances`, `run_instances`,
`reboot_instances`, `describe_images` — in particular no branch makes a
second call or retries a failed one. -/
theorem c3_one_sdk_call_per_choice (ec2 : Ec2Client) (sdk : SdkOracle) (idRaw : String)
    (rest : List String) (h : pyStrip idRaw ≠ "") :
    sdkCallsOf (mainIteration ec2 sdk ("1" :: rest)).2.2.1 = [SdkMethod.describeInstances] ∧
    sdkCallsOf (mainIteration ec2 sdk ("2" :: rest)).2.2.1 = [SdkMethod.describeAvailabilityZones] ∧
    sdkCallsOf (mainIteration ec2 sdk ("3" :: idRaw :: rest)).2.2.1 = [SdkMethod.startInstances] ∧
    sdkCallsOf (mainIteration ec2 sdk ("4" :: rest)).2.2.1 = [SdkMethod.describeRegions] ∧
    sdkCallsOf (mainIteration ec2 sdk ("5" :: idRaw :: rest)).2.2.1 = [SdkMethod.stopInstances] ∧
    sdkCallsOf (mainIteration ec2 sdk ("6" :: idRaw :: rest)).2.2.1 = [SdkMethod.runInstances] ∧
    sdkCallsOf (mainIteration ec2 sdk ("7" :: idRaw :: rest)).2.2.1 = [SdkMethod.rebootInstances] ∧
    sdkCallsOf (mainIteration ec2 sdk ("8" :: rest)).2.2.1 = [SdkMethod.describeImages] := by
  refine ⟨?_, ?_, ?_, ?_, ?_, ?_, ?_, ?_⟩
  · rw [mainIteration_choice1]
    simp only [sdkCallsOf_append, sdkCallsOf_menuPrompt, List.nil_append, list_instances_calls]
  · rw [mainIteration_choice2]
    simp only [sdkCallsOf_append, sdkCallsOf_menuPrompt, List.nil_append, available_zones_calls]
  · rw [mainIteration_choice3, readIdThen_nonempty _ _ _ _ _ _ h]
    simp only [sdkCallsOf_append, sdkCallsOf_menuPrompt, sdkCallsOf_readInput,
      List.nil_append, start_instance_calls]
  · rw [mainIteration_choice4]
    simp only [sdkCallsOf_append, sdkCallsOf_menuPrompt, List.nil_append, available_regions_calls]
  · rw [mainIteration_choice5, readIdThen_nonempty _ _ _ _ _ _ h]
    simp only [sdkCallsOf_append, sdkCallsOf_menuPrompt, sdkCallsOf_readInput,
      List.nil_append, stop_instance_calls]
  · rw [mainIteration_choice6, readIdThen_nonempty _ _ _ _ _ _ h]
    simp only [sdkCallsOf_append, sdkCallsOf_menuPrompt, sdkCallsOf_readInput,
      List.nil_append, create_instance_calls]
  · rw [mainIteration_choice7, readIdThen_nonempty _ _ _ _ _ _ h]
    simp only [sdkCallsOf_append, sdkCallsOf_menuPrompt, sdkCallsOf_readInput,
      List.nil_append, reboot_instance_calls]
  · rw [mainIteration_choice8]
    simp only [sdkCallsOf_append, sdkCallsOf_menuPrompt, List.nil_append, list_images_calls]

/-- C3, witness at a concrete oracle and identifier. -/
theorem c3_witness :
    sdkCallsOf (mainIteration stubClient baseOracle ("1" :: [])).2.2.1 =
      [SdkMethod.describeInstances] ∧
    sdkCallsOf (mainIteration stubClient baseOracle ("2" :: [])).2.2.1 =
      [SdkMethod.describeAvailabilityZones] ∧
    sdkCallsOf (mainIteration stubClient baseOracle ("3" :: "i-0abc" :: [])).2.2.1 =
      [SdkMethod.startInstances] ∧
    sdkCallsOf (mainIteration stubClient baseOracle ("4" :: [])).2.2.1 =
      [SdkMethod.describeRegions] ∧
    sdkCallsOf (mainIteration stubClient baseOracle ("5" :: "i-0abc" :: [])).2.2.1 =
      [SdkMethod.stopInstances] ∧
    sdkCallsOf (mainIteration stubClient baseOracle ("6" :: "i-0abc" :: [])).2.2.1 =
      [SdkMethod.runInstances] ∧
    sdkCallsOf (mainIteration stubClient baseOracle ("7" :: "i-0abc" :: [])).2.2.1 =
      [SdkMethod.rebootInstances] ∧
    sdkCallsOf (mainIteration stubClient baseOracle ("8" :: [])).2.2.1 =
      [SdkMethod.describeImages] :=
  c3_one_sdk_call_per_choice stubClient baseOracle "i-0abc" [] (by decide)

/-- C4: the menu reads a line; a line that is not a digit string yields
the invalid-input message and no operation; a digit string parsing
outside {1,…,9,99} yields the invalid-choice message and no operation; for
choices 3, 5, 6 and 7 a follow-up line (instance or AMI identifier) is
consumed before any operation runs. -/
theorem c4_menu_input_validation (ec2 : Ec2Client) (sdk : SdkOracle) (choice : String)
    (rest : List String) (raw : String) :
    (pyIsDigit choice = false →
      mainIteration ec2 sdk (choice :: rest) =
        (.loopAgain, ec2, menuPrompt ++ [Event.print "Invalid input. Please enter a number."],
          rest)) ∧
    (pyIsDigit choice = true → parseNat choice ∉ ([1, 2, 3, 4, 5, 6, 7, 8, 9, 99] : List Nat) →
      mainIteration ec2 sdk (choice :: rest) =
        (.loopAgain, ec2, menuPrompt ++ [Event.print "Invalid choice. Please try again."],
          rest)) ∧
    ((mainIteration ec2 sdk ("3" :: raw :: rest)).2.2.2 = rest ∧
      Event.readInput "Enter instance ID: " ∈ (mainIteration ec2 sdk ("3" :: raw :: rest)).2.2.1) ∧
    ((mainIteration ec2 sdk ("5" :: raw :: rest)).2.2.2 = rest ∧
      Event.readInput "Enter instance ID: " ∈ (mainIteration ec2 sdk ("5" :: raw :: rest)).2.2.1) ∧
    ((mainIteration ec2 sdk ("6" :: raw :: rest)).2.2.2 = rest ∧
      Event.readInput "Enter AMI ID: " ∈ (mainIteration ec2 sdk ("6" :: raw :: rest)).2.2.1) ∧
    ((mainIteration ec2 sdk ("7" :: raw :: rest)).2.2.2 = rest ∧
      Event.readInput "Enter instance ID: " ∈ (mainIteration ec2 sdk ("7" :: raw :: rest)).2.2.1) := by
  refine ⟨?_, ?_, ?_, ?_, ?_, ?_⟩
  · intro hd
    exact mainIteration_nondigit ec2 sdk choice rest hd
  · intro hd hn
    rw [mainIteration_cons, if_neg (by simp [hd])]
    split <;> simp_all
  · rw [mainIteration_choice3]
    by_cases he : (pyStrip raw).data.isEmpty = true <;>
      (constructor <;> simp [readIdThen, he, menuPrompt, List.mem_append])
  · rw [mainIteration_choice5]
    by_cases he : (pyStrip raw).data.isEmpty = true <;>
      (constructor <;> simp [readIdThen, he, menuPrompt, List.mem_append])
  · rw [mainIteration_choice6]
    by_cases he : (pyStrip raw).data.isEmpty = true <;>
      (constructor <;> simp [readIdThen, he, menuPrompt, List.mem_append])
  · rw [mainIteration_choice7]
    by_cases he : (pyStrip raw).data.isEmpty = true <;>
      (constructor <;> simp [readIdThen, he, menuPrompt, List.mem_append])

/-- C4, witness: the non-digit and out-of-range branches at concrete
inputs. -/
theorem c4_witness :
    mainIteration stubClient baseOracle ("abc" :: []) =
      (.loopAgain, stubClient,
        menuPrompt ++ [Event.print "Invalid input. Please enter a number."], []) ∧
    mainIteration stubClient baseOracle ("42" :: []) =
      (.loopAgain, stubClient,
        menuPrompt ++ [Event.print "Invalid choice. Please try again."], []) :=
  ⟨(c4_menu_input_validation stubClient baseOracle "abc" [] "x").1 (by decide),
   (c4_menu_input_validation stubClient baseOracle "42" [] "x").2.1 (by decide) (by decide)⟩

/-- C5: a credential failure while creating the EC2 client in `init`
prints the message and terminates the process with exit status 1;
otherwise `init` returns the client (for the fixed region us-east-1) and
`main` proceeds into the menu loop with it. -/
theorem c5_init_credentials (creation : ClientCreation) (sdk : SdkOracle) (fuel : Nat)
    (inputs : List String) :
    ((creation = ClientCreation.NoCredentialsError ∨
        creation = ClientCreation.PartialCredentialsError) →
      main creation sdk fuel inputs =
        (.exitStatus 1, [Event.createClient "ec2" "us-east-1",
          Event.print "Cannot load the credentials. Make sure your AWS CLI is configured."])) ∧
    (creation = ClientCreation.Ok →
      main creation sdk fuel inputs =
        ((mainLoop sdk fuel ⟨"us-east-1"⟩ inputs).1,
          Event.createClient "ec2" "us-east-1" :: (mainLoop sdk fuel ⟨"us-east-1"⟩ inputs).2)) := by
  constructor
  · rintro (rfl | rfl) <;> rfl
  · rintro rfl
    rfl

/-- C5, witness at concrete creation outcomes. -/
theorem c5_witness :
    main ClientCreation.NoCredentialsError baseOracle 1 ["99"] =
      (.exitStatus 1, [Event.createClient "ec2" "us-east-1",
        Event.print "Cannot load the credentials. Make sure your AWS CLI is configured."]) ∧
    main ClientCreation.Ok baseOracle 1 ["99"] =
      ((mainLoop baseOracle 1 ⟨"us-east-1"⟩ ["99"]).1,
        Event.createClient "ec2" "us-east-1" ::
          (mainLoop baseOracle 1 ⟨"us-east-1"⟩ ["99"]).2) :=
  ⟨(c5_init_credentials ClientCreation.NoCredentialsError baseOracle 1 ["99"]).1 (Or.inl rfl),
   (c5_init_credentials ClientCreation.Ok baseOracle 1 ["99"]).2 rfl⟩

/-- C7: no menu operation mutates program-owned state: the EC2 client
handle an iteration passes to the next iteration is exactly the one it
received (never reassigned), and neither one iteration nor the whole menu
loop ever emits a file write — all output is events (prints, SDK calls,
sleeps, client creations, input reads). -/
theorem c7_no_state_mutation (ec2 : Ec2Client) (sdk : SdkOracle) (inputs : List String)
    (fuel : Nat) :
    (mainIteration ec2 sdk inputs).2.1 = ec2 ∧
    ((mainIteration ec2 sdk inputs).2.2.1.all fun e => !isFileWrite e) = true ∧
    ((mainLoop sdk fuel ec2 inputs).2.all fun e => !isFileWrite e) = true :=
  ⟨mainIteration_client ec2 sdk inputs,
   all_noFileWrite_of_tame _ (mainIteration_tame ec2 sdk inputs),
   all_noFileWrite_of_tame _ (mainLoop_tame sdk fuel ec2 inputs)⟩

/-- C8: for menu choices 3, 5, 6 and 7, when the follow-up identifier
strips to the empty string, the iteration makes no SDK call and silently
returns to the menu: its whole trace is the menu prompt plus the follow-up
input read, and the outcome is a normal loop continuation. -/
theorem c8_blank_identifier_no_call (ec2 : Ec2Client) (sdk : SdkOracle) (raw : String)
    (rest : List String) (h : pyStrip raw = "") :
    mainIteration ec2 sdk ("3" :: raw :: rest) =
      (.loopAgain, ec2, menuPrompt ++ [Event.readInput "Enter instance ID: "], rest) ∧
    mainIteration ec2 sdk ("5" :: raw :: rest) =
      (.loopAgain, ec2, menuPrompt ++ [Event.readInput "Enter instance ID: "], rest) ∧
    mainIteration ec2 sdk ("6" :: raw :: rest) =
      (.loopAgain, ec2, menuPrompt ++ [Event.readInput "Enter AMI ID: "], rest) ∧
    mainIteration ec2 sdk ("7" :: raw :: rest) =
      (.loopAgain, ec2, menuPrompt ++ [Event.readInput "Enter instance ID: "], rest) ∧
    sdkCallsOf (mainIteration ec2 sdk ("3" :: raw :: rest)).2.2.1 = [] ∧
    sdkCallsOf (mainIteration ec2 sdk ("5" :: raw :: rest)).2.2.1 = [] ∧
    sdkCallsOf (mainIteration ec2 sdk ("6" :: raw :: rest)).2.2.1 = [] ∧
    sdkCallsOf (mainIteration ec2 sdk ("7" :: raw :: rest)).2.2.1 = [] := by
  have h3 : mainIteration ec2 sdk ("3" :: raw :: rest) =
      (.loopAgain, ec2, menuPrompt ++ [Event.readInput "Enter instance ID: "], rest) := by
    rw [mainIteration_choice3]; exact readIdThen_empty _ _ _ _ _ _ h
  have h5 : mainIteration ec2 sdk ("5" :: raw :: rest) =
      (.loopAgain, ec2, menuPrompt ++ [Event.readInput "Enter instance ID: "], rest) := by
    rw [mainIteration_choice5]; exact readIdThen_empty _ _ _ _ _ _ h
  have h6 : mainIteration ec2 sdk ("6" :: raw :: rest) =
      (.loopAgain, ec2, menuPrompt ++ [Event.readInput "Enter AMI ID: "], rest) := by
    rw [mainIteration_choice6]; exact readIdThen_empty _ _ _ _ _ _ h
  have h7 : mainIteration ec2 sdk ("7" :: raw :: rest) =
      (.loopAgain, ec2, menuPrompt ++ [Event.readInput "Enter instance ID: "], rest) := by
    rw [mainIteration_choice7]; exact readIdThen_empty _ _ _ _ _ _ h
  refine ⟨h3, h5, h6, h7, ?_, ?_, ?_, ?_⟩ <;>
    first
      | (rw [h3]; rfl)
      | (rw [h5]; rfl)
      | (rw [h6]; rfl)
      | (rw [h7]; rfl)

/-- C8, witness at a whitespace-only identifier. -/
theorem c8_witness :
    mainIteration stubClient baseOracle ("3" :: "   " :: []) =
      (.loopAgain, stubClient, menuPrompt ++ [Event.readInput "Enter instance ID: "], []) ∧
    sdkCallsOf (mainIteration stubClient baseOracle ("6" :: "   " :: [])).2.2.1 = [] :=
  ⟨(c8_blank_identifier_no_call stubClient baseOracle "   " [] (by decide)).1,
   (c8_blank_identifier_no_call stubClient baseOracle "   " [] (by decide)).2.2.2.2.2.2.1⟩

/-- C9: `run_command_on_instance` returns `None` exactly when sending or
fetching raised, and the standard-output content otherwise; the
per-instance step of `condor_status` prints the failure report exactly
when that value is `None` or the empty string — so a command that
succeeds with empty standard output is reported as a failure. -/
theorem c9_output_truthiness (sdk : SdkOracle) (i cmd : String) :
    (∀ e, sdk.send_command [i] "AWS-RunShellScript" [cmd] = Except.error e →
      (run_command_on_instance sdk i cmd).1 = none) ∧
    (∀ resp e, sdk.send_command [i] "AWS-RunShellScript" [cmd] = Except.ok resp →
      sdk.get_command_invocation resp.commandId i = Except.error e →
      (run_command_on_instance sdk i cmd).1 = none) ∧
    (∀ resp inv, sdk.send_command [i] "AWS-RunShellScript" [cmd] = Except.ok resp →
      sdk.get_command_invocation resp.commandId i = Except.ok inv →
      (run_command_on_instance sdk i cmd).1 = some inv.standardOutputContent) ∧
    (∀ out evs, run_command_on_instance sdk i "condor_status" = (out, evs) →
      (condorInstanceStep sdk i =
        Event.print ("Running 'condor_status' on instance " ++ i ++ "...") :: evs ++
          [Event.print ("Failed to retrieve condor_status for instance " ++ i ++ ".")] ↔
        (out = none ∨ out = some ""))) := by
  refine ⟨?_, ?_, ?_, ?_⟩
  · intro e hs
    simp [run_command_on_instance, hs]
  · intro resp e hs hg
    simp [run_command_on_instance, hs, hg]
  · intro resp inv hs hg
    simp [run_command_on_instance, hs, hg]
  · intro out evs hre
    have hout : (run_command_on_instance sdk i "condor_status").1 = out := by rw [hre]
    have hevs : (run_command_on_instance sdk i "condor_status").2 = evs := by rw [hre]
    unfold condorInstanceStep
    rw [hout, hevs]
    by_cases hft : pyTruthyStr out = true
    · rw [if_pos hft]
      constructor
      · intro heq
        exfalso
        simp at heq
      · intro hdisj
        rcases hdisj with rfl | rfl <;> simp [pyTruthyStr] at hft
    · rw [if_neg hft]
      have hff : pyTruthyStr out = false := by
        revert hft; cases pyTruthyStr out <;> simp
      constructor
      · intro _
        exact (pyTruthyStr_eq_false_iff out).mp hff
      · intro _
        rfl

/-- C9, witness: on an oracle whose remote command succeeds with empty
standard output, the value is `some ""` and the step reports failure. -/
theorem c9_witness :
    (run_command_on_instance emptyOutOracle "i-0abc" "condor_status").1 = some "" ∧
    condorInstanceStep emptyOutOracle "i-0abc" =
      Event.print ("Running 'condor_status' on instance " ++ "i-0abc" ++ "...") ::
        (run_command_on_instance emptyOutOracle "i-0abc" "condor_status").2 ++
        [Event.print ("Failed to retrieve condor_status for instance " ++ "i-0abc" ++ ".")] := by
  constructor
  · exact (c9_output_truthiness emptyOutOracle "i-0abc" "condor_status").2.2.1
      ⟨"cmd-1"⟩ ⟨""⟩ rfl rfl
  · exact ((c9_output_truthiness emptyOutOracle "i-0abc" "condor_status").2.2.2
      (some "") _ rfl).mpr (Or.inr rfl)

/-- C10: `create_instance` issues exactly one `run_instances` call, always
with the fixed type t2.micro and MinCount = MaxCount = 1 and only the AMI
ID from input; on success it prints the instance ID of the first instance
of the response; and every API client the program creates targets the
fixed region us-east-1. -/
theorem c10_create_instance_fixed_shape (sdk : SdkOracle) (ami : String)
    (creation : ClientCreation) (sdk2 : SdkOracle) (fuel : Nat) (inputs : List String) :
    (create_instance sdk ami).2.filterMap runInstancesArgsOf =
      [CallArgs.runInstancesArgs ami "t2.micro" 1 1] ∧
    (∀ resp inst tl, sdk.run_instances ami "t2.micro" 1 1 = Except.ok resp →
      resp.instances = inst :: tl →
      Event.print ("Successfully created instance " ++ inst.instanceId ++
        " based on AMI " ++ ami ++ ".") ∈ (create_instance sdk ami).2) ∧
    (∀ svc r, Event.createClient svc r ∈ (main creation sdk2 fuel inputs).2 →
      r = "us-east-1") := by
  refine ⟨?_, ?_, ?_⟩
  · cases h : sdk.run_instances ami "t2.micro" 1 1 with
    | error e =>
        simp [create_instance, h, runInstancesArgsOf, List.filterMap_cons]
    | ok resp =>
        cases hi : resp.instances <;>
          simp [create_instance, h, hi, runInstancesArgsOf, List.filterMap_cons]
  · intro resp inst tl h hi
    simp [create_instance, h, hi, List.mem_append]
  · intro svc r hm
    exact createClient_region_of_tame _ (main_tame creation sdk2 fuel inputs) svc r hm

/-- C10, witness at a concrete oracle and AMI. -/
theorem c10_witness :
    (create_instance baseOracle "ami-1").2.filterMap runInstancesArgsOf =
      [CallArgs.runInstancesArgs "ami-1" "t2.micro" 1 1] ∧
    Event.print ("Successfully created instance " ++ "i-new" ++
      " based on AMI " ++ "ami-1" ++ ".") ∈ (create_instance baseOracle "ami-1").2 := by
  constructor
  · exact (c10_create_instance_fixed_shape baseOracle "ami-1"
      ClientCreation.Ok baseOracle 0 []).1
  · exact (c10_create_instance_fixed_shape baseOracle "ami-1"
      ClientCreation.Ok baseOracle 0 []).2.1
      ⟨[⟨"i-new", "ami-1", "t2.micro", "pending", "disabled"⟩]⟩
      ⟨"i-new", "ami-1", "t2.micro", "pending", "disabled"⟩ [] rfl rfl

end AwsCloud
